import Mathlib

/-!
Verification development for the watch-file-cache repository.

The repository holds two implementations of a WatchFileCache class:
* an fs.watch based implementation (one watcher per entry, EventEmitter
  notifications, async delete/clear/close) — embedded in namespace WFC;
* a chokidar based implementation (one shared FSWatcher, plain value map,
  no notifications) — embedded in namespace Chokidar.

JavaScript Map objects are embedded as association lists with the exact
first-occurrence semantics of get/set/delete.  Asynchronous callbacks
(the fs.watch change callback, the error handler) are embedded as explicit
state-transition functions so that interleavings with caller operations
can be examined step by step.  Emitted EventEmitter notifications are
recorded in an events trace field.
-/

/-- JavaScript Map.get: the value at the first pair whose key matches. -/
def getKey {α : Type} : List (String × α) → String → Option α
  | [], _ => none
  | (k1, v1) :: rest, k => if k1 = k then some v1 else getKey rest k

/-- JavaScript Map.set: replace the value at the first matching key in
place, or append a fresh pair at the end. -/
def setKey {α : Type} : List (String × α) → String → α → List (String × α)
  | [], k, v => [(k, v)]
  | (k1, v1) :: rest, k, v =>
    if k1 = k then (k, v) :: rest else (k1, v1) :: setKey rest k v

/-- JavaScript Map.delete: remove the first pair whose key matches. -/
def deleteKey {α : Type} : List (String × α) → String → List (String × α)
  | [], _ => []
  | (k1, v1) :: rest, k =>
    if k1 = k then rest else (k1, v1) :: deleteKey rest k

/-- The counters kept in the private field of both implementations:
everything of the Stats interface except the derived size. -/
structure Counters where
  hits : Nat
  misses : Nat
  ejected : Nat
  errors : Nat
deriving Repr, DecidableEq

/-- The zeroStats constant of the source. -/
def zeroStats : Counters :=
  { hits := 0, misses := 0, ejected := 0, errors := 0 }

/-- The externally observable Stats shape: size plus the four counters.
All fields are natural numbers, hence non-negative integers. -/
structure Stats where
  size : Nat
  hits : Nat
  misses : Nat
  ejected : Nat
  errors : Nat
deriving Repr, DecidableEq

/-- Pointwise order on the counters, used to state monotonicity. -/
def counterLe (a b : Counters) : Prop :=
  a.hits ≤ b.hits ∧ a.misses ≤ b.misses ∧ a.ejected ≤ b.ejected ∧
    a.errors ≤ b.errors

namespace WFC

/-- A cache entry of the fs.watch implementation: the caller payload plus
an optional watcher handle (absent only in the window between map
insertion and watch registration).  Watcher handles are identified by a
number. -/
structure Entry (T : Type) where
  watcher : Option Nat
  contents : T
deriving Repr, DecidableEq

/-- One notification emitted on the EventEmitter surface of the fs.watch
implementation. -/
inductive Event (T : Type) where
  | miss (path : String)
  | hit (path : String) (value : T)
  | watchEv (path : String)
  | setEv (path : String) (value : T) (prev : Option T)
  | eject (path : String) (kind : String)
  | errEv (msg : String)
  | delEv (path : String) (existed : Bool)
  | clearEv
  | closeEv
deriving Repr, DecidableEq

/-- The full state of an fs.watch WatchFileCache instance: the entry map,
the private counters, the trace of watcher handles whose close was
requested and awaited (the teardown-wait sequence), and the trace of
emitted notifications. -/
structure Cache (T : Type) where
  _cache : List (String × Entry T)
  _stats : Counters
  closedWatchers : List Nat
  events : List (Event T)
deriving Repr, DecidableEq

/-- A freshly constructed instance. -/
def newCache {T : Type} : Cache T :=
  { _cache := [], _stats := zeroStats, closedWatchers := [], events := [] }

/-- The public stats getter: the counters plus the derived map size. -/
def stats {T : Type} (c : Cache T) : Stats :=
  { size := c._cache.length, hits := c._stats.hits, misses := c._stats.misses,
    ejected := c._stats.ejected, errors := c._stats.errors }

/-- The get method: on a missing key increment misses and emit a miss
notification, otherwise increment hits and emit a hit notification;
return the stored contents or none. -/
def get {T : Type} (c : Cache T) (path : String) : Option T × Cache T :=
  match getKey c._cache path with
  | none =>
    (none,
      { c with _stats := { c._stats with misses := c._stats.misses + 1 },
               events := c.events ++ [Event.miss path] })
  | some e =>
    (some e.contents,
      { c with _stats := { c._stats with hits := c._stats.hits + 1 },
               events := c.events ++ [Event.hit path e.contents] })

/-- The set method.  The fs.watch registration outcome is passed in as an
environment parameter: ok with a fresh watcher handle, or error with the
thrown message (ENOENT and friends).  On a fresh path the code inserts
the entry first, then registers the watch; if registration throws it
deletes the inserted entry again and rethrows.  On an existing path it
replaces the payload in place and leaves the watch alone.  The TypeScript
method returns this; the returned state is that object, and the prior
payload is observable only in the emitted set notification. -/
def set {T : Type} (c : Cache T) (path : String) (contents : T)
    (w : Except String Nat) : Except String Unit × Cache T :=
  match getKey c._cache path with
  | none =>
    let c1 :=
      { c with _cache := setKey c._cache path ⟨none, contents⟩ }
    match w with
    | Except.error er =>
      (Except.error er, { c1 with _cache := deleteKey c1._cache path })
    | Except.ok wid =>
      let c2 :=
        { c1 with _cache := setKey c1._cache path ⟨some wid, contents⟩ }
      let c3 := { c2 with events := c2.events ++ [Event.watchEv path] }
      (Except.ok (),
        { c3 with events := c3.events ++ [Event.setEv path contents none] })
  | some entry =>
    let c1 :=
      { c with
        _cache := setKey c._cache path ⟨entry.watcher, contents⟩ }
    (Except.ok (),
      { c1 with
        events := c1.events ++ [Event.setEv path contents (some entry.contents)] })

/-- The delete method.  On a missing key it returns false with no side
effect.  On a present key it awaits the close of the watcher (recorded in
closedWatchers), removes the entry, emits a delete notification carrying
the current value of the ret flag — still false at that point — and then
returns true. -/
def delete {T : Type} (c : Cache T) (path : String) : Bool × Cache T :=
  match getKey c._cache path with
  | none => (false, c)
  | some entry =>
    let c1 :=
      match entry.watcher with
      | none => c
      | some wid => { c with closedWatchers := c.closedWatchers ++ [wid] }
    let c2 := { c1 with _cache := deleteKey c1._cache path }
    (true, { c2 with events := c2.events ++ [Event.delEv path false] })

/-- The change callback installed by set for a given path: run delete for
the path, then unconditionally increment ejected and emit an eject
notification once the delete promise resolves. -/
def watchCallback {T : Type} (c : Cache T) (path : String)
    (eventType : String) : Cache T :=
  let dc := delete c path
  let c1 :=
    { dc.2 with
      _stats := { dc.2._stats with ejected := dc.2._stats.ejected + 1 } }
  { c1 with events := c1.events ++ [Event.eject path eventType] }

/-- The error handler installed by set for a given path: remove the map
entry directly without any close or teardown wait, increment errors and
emit an error notification carrying the cause. -/
def errorCallback {T : Type} (c : Cache T) (path : String) (msg : String) :
    Cache T :=
  let c1 := { c with _cache := deleteKey c._cache path }
  let c2 := { c1 with _stats := { c1._stats with errors := c1._stats.errors + 1 } }
  { c2 with events := c2.events ++ [Event.errEv msg] }

/-- The watcher handles of all current entries, in map order. -/
def watcherIds {T : Type} : List (String × Entry T) → List Nat
  | [] => []
  | kv :: rest =>
    match kv.2.watcher with
    | none => watcherIds rest
    | some w => w :: watcherIds rest

/-- The close method: await the close of every entry watcher, empty the
map and emit a close notification.  Counters are untouched. -/
def close {T : Type} (c : Cache T) : Cache T :=
  let c1 := { c with closedWatchers := c.closedWatchers ++ watcherIds c._cache }
  let c2 := { c1 with _cache := [] }
  { c2 with events := c2.events ++ [Event.closeEv] }

/-- The clear method: await close, then reset the counters to zeroStats
and emit a clear notification. -/
def clear {T : Type} (c : Cache T) : Cache T :=
  let c1 := close c
  let c2 := { c1 with _stats := zeroStats }
  { c2 with events := c2.events ++ [Event.clearEv] }

end WFC

namespace Chokidar

/-- The state of a chokidar based WatchFileCache instance: the map holds
the caller payloads directly (no per-entry watcher object) and there is
no notification surface.  The TypeScript value type T may itself admit
undefined, which is embedded as Option V with none standing for a stored
undefined. -/
structure Cache (V : Type) where
  _cache : List (String × Option V)
  _stats : Counters
deriving Repr, DecidableEq

/-- A freshly constructed instance. -/
def newCache {V : Type} : Cache V :=
  { _cache := [], _stats := zeroStats }

/-- The public stats getter: the counters plus the derived map size. -/
def stats {V : Type} (c : Cache V) : Stats :=
  { size := c._cache.length, hits := c._stats.hits, misses := c._stats.misses,
    ejected := c._stats.ejected, errors := c._stats.errors }

/-- The JavaScript expression this._cache.get(path): undefined both when
the key is absent and when the stored value is itself undefined. -/
def jsGet {V : Type} (c : Cache V) (path : String) : Option V :=
  match getKey c._cache path with
  | none => none
  | some v => v

/-- The get method: compare the map result against undefined, increment
misses or hits accordingly, and return the result. -/
def get {V : Type} (c : Cache V) (path : String) : Option V × Cache V :=
  match jsGet c path with
  | none =>
    (none, { c with _stats := { c._stats with misses := c._stats.misses + 1 } })
  | some v =>
    (some v, { c with _stats := { c._stats with hits := c._stats.hits + 1 } })

/-- The set method: store the payload and add the path to the shared
watcher (an external effect with no embedded state); returns this. -/
def set {V : Type} (c : Cache V) (path : String) (contents : Option V) :
    Cache V :=
  { c with _cache := setKey c._cache path contents }

/-- The delete method: unwatch the path on the shared watcher (external)
and return the result of the map delete. -/
def delete {V : Type} (c : Cache V) (path : String) : Bool × Cache V :=
  ((getKey c._cache path).isSome, { c with _cache := deleteKey c._cache path })

/-- The handler of the shared watcher for all change events: delete the
path and increment ejected unconditionally. -/
def allHandler {V : Type} (c : Cache V) (path : String) : Cache V :=
  let dc := delete c path
  { dc.2 with
    _stats := { dc.2._stats with ejected := dc.2._stats.ejected + 1 } }

/-- The handler of the shared watcher for error events: only increment
the errors counter; the map is untouched and nothing is removed. -/
def errorHandler {V : Type} (c : Cache V) : Cache V :=
  { c with _stats := { c._stats with errors := c._stats.errors + 1 } }

/-- The clear method: close the shared watcher, empty the map, replace
the watcher and reset the counters. -/
def clear {V : Type} (c : Cache V) : Cache V :=
  { c with _cache := [], _stats := zeroStats }

end Chokidar

/-- A concrete fs.watch cache holding one entry for path /a with payload 1
and watcher handle 0, as produced by a successful set on a fresh cache. -/
def entryOneState : WFC.Cache Nat :=
  (WFC.set WFC.newCache "/a" 1 (Except.ok 0)).2

/-- The state reached from entryOneState after an explicit delete of /a
has completed: the entry is gone from the store. -/
def raceState : WFC.Cache Nat :=
  (WFC.delete entryOneState "/a").2

/-- A concrete chokidar cache after set of path /a with a stored
undefined payload. -/
def chokUndefState : Chokidar.Cache Nat :=
  Chokidar.set Chokidar.newCache "/a" none

/-- A concrete chokidar cache holding one entry for /a, after the shared
watcher reported an error. -/
def chokErrState : Chokidar.Cache Nat :=
  Chokidar.errorHandler (Chokidar.set Chokidar.newCache "/a" (some 1))

theorem deleteKey_setKey_of_getKey_none {α : Type} (l : List (String × α))
    (k : String) (v : α) (h : getKey l k = none) :
    deleteKey (setKey l k v) k = l := by
  induction l with
  | nil => simp [setKey, deleteKey]
  | cons hd tl ih =>
    obtain ⟨k1, v1⟩ := hd
    by_cases hk : k1 = k
    · simp [getKey, hk] at h
    · simp only [getKey, if_neg hk] at h
      simp [setKey, deleteKey, hk, ih h]

theorem setKey_length_of_getKey_some {α : Type} (l : List (String × α))
    (k : String) (v v0 : α) (h : getKey l k = some v0) :
    (setKey l k v).length = l.length := by
  induction l with
  | nil => simp [getKey] at h
  | cons hd tl ih =>
    obtain ⟨k1, v1⟩ := hd
    by_cases hk : k1 = k
    · simp [setKey, hk]
    · simp only [getKey, if_neg hk] at h
      simp [setKey, hk, ih h]

theorem deleteKey_length_of_getKey_some {α : Type} (l : List (String × α))
    (k : String) (v0 : α) (h : getKey l k = some v0) :
    (deleteKey l k).length + 1 = l.length := by
  induction l with
  | nil => simp [getKey] at h
  | cons hd tl ih =>
    obtain ⟨k1, v1⟩ := hd
    by_cases hk : k1 = k
    · simp [deleteKey, hk]
    · simp only [getKey, if_neg hk] at h
      simp [deleteKey, hk]
      exact ih h

theorem getKey_setKey_self {α : Type} (l : List (String × α)) (k : String)
    (v : α) : getKey (setKey l k v) k = some v := by
  induction l with
  | nil => simp [setKey, getKey]
  | cons hd tl ih =>
    obtain ⟨k1, v1⟩ := hd
    by_cases hk : k1 = k
    · simp [setKey, getKey, hk]
    · simp [setKey, getKey, hk, ih]

theorem wfc_delete_preserves_stats {T : Type} (c : WFC.Cache T)
    (p : String) : (WFC.delete c p).2._stats = c._stats := by
  cases hg : getKey c._cache p with
  | none => simp [WFC.delete, hg]
  | some e => cases hw : e.watcher <;> simp [WFC.delete, hg, hw]

/-- Claim C2: when watch registration fails for a path with no existing
entry, set propagates the registration error and the whole cache state is
left unchanged: the inserted entry is rolled back, so no entry for the
path is present afterwards, all counters keep their prior values and no
notification is emitted. -/
theorem wfc_set_watch_failure_rolls_back {T : Type} (c : WFC.Cache T)
    (p : String) (v : T) (er : String) (h : getKey c._cache p = none) :
    (WFC.set c p v (Except.error er)).1 = Except.error er ∧
    (WFC.set c p v (Except.error er)).2 = c ∧
    getKey (WFC.set c p v (Except.error er)).2._cache p = none ∧
    WFC.stats (WFC.set c p v (Except.error er)).2 = WFC.stats c := by
  have hroll : deleteKey (setKey c._cache p ⟨none, v⟩) p = c._cache :=
    deleteKey_setKey_of_getKey_none c._cache p ⟨none, v⟩ h
  refine ⟨?_, ?_, ?_, ?_⟩ <;> simp [WFC.set, h, hroll]

/-- Claim C2 witness: setting path /tmp/missing-file on a fresh cache
with a failing watch registration returns the error and leaves the cache
in its initial state, counters all zero. -/
theorem wfc_set_watch_failure_rolls_back_witness :
    (WFC.set (WFC.newCache (T := Nat)) "/tmp/missing-file" 1
        (Except.error "ENOENT")).1 = Except.error "ENOENT" ∧
    (WFC.set (WFC.newCache (T := Nat)) "/tmp/missing-file" 1
        (Except.error "ENOENT")).2 = WFC.newCache ∧
    WFC.stats (WFC.set (WFC.newCache (T := Nat)) "/tmp/missing-file" 1
        (Except.error "ENOENT")).2 =
      { size := 0, hits := 0, misses := 0, ejected := 0, errors := 0 } := by
  have h := wfc_set_watch_failure_rolls_back (WFC.newCache (T := Nat))
    "/tmp/missing-file" 1 "ENOENT" rfl
  exact ⟨h.1, h.2.1, by rw [h.2.2.2]; rfl⟩

/-- Claim C3, what the code does on the failing input: set on an existing
path replaces the payload in place, keeps the old watcher handle, leaves
the map length and all counters and the teardown trace unchanged, emits a
set notification carrying the prior payload — and its call result is
success carrying no value, because the TypeScript method returns this,
not the previous value its own doc comment promises. -/
theorem wfc_set_existing_updates_in_place {T : Type} (c : WFC.Cache T)
    (p : String) (v : T) (w : Except String Nat) (e : WFC.Entry T)
    (h : getKey c._cache p = some e) :
    (WFC.set c p v w).1 = Except.ok () ∧
    (WFC.set c p v w).2._cache = setKey c._cache p ⟨e.watcher, v⟩ ∧
    (WFC.set c p v w).2._cache.length = c._cache.length ∧
    getKey (WFC.set c p v w).2._cache p = some ⟨e.watcher, v⟩ ∧
    (WFC.set c p v w).2._stats = c._stats ∧
    (WFC.set c p v w).2.closedWatchers = c.closedWatchers ∧
    (WFC.set c p v w).2.events =
      c.events ++ [WFC.Event.setEv p v (some e.contents)] := by
  refine ⟨?_, ?_, ?_, ?_, ?_, ?_, ?_⟩ <;>
    simp [WFC.set, h, setKey_length_of_getKey_some c._cache p _ e h,
      getKey_setKey_self]

/-- Claim C3 witness: on the cache holding payload 1 for /a under watcher
handle 0, a second set with payload 2 succeeds, keeps size 1 and watcher
handle 0, and emits the set notification with previous payload 1. -/
theorem wfc_set_existing_updates_in_place_witness :
    (WFC.set entryOneState "/a" 2 (Except.ok 5)).1 = Except.ok () ∧
    (WFC.set entryOneState "/a" 2 (Except.ok 5)).2._cache.length = 1 ∧
    getKey (WFC.set entryOneState "/a" 2 (Except.ok 5)).2._cache "/a" =
      some ⟨some 0, 2⟩ ∧
    (WFC.set entryOneState "/a" 2 (Except.ok 5)).2._stats = zeroStats := by
  have h := wfc_set_existing_updates_in_place entryOneState "/a" 2
    (Except.ok 5) ⟨some 0, 1⟩ (by decide)
  exact ⟨h.1, h.2.2.1, h.2.2.2.1, h.2.2.2.2.1⟩

/-- Claim C5: clear empties the store and resets every counter to zero;
close empties the store and keeps every counter at its prior value. -/
theorem wfc_clear_resets_close_preserves {T : Type} (c : WFC.Cache T) :
    (WFC.clear c)._cache = [] ∧ (WFC.stats (WFC.clear c)).size = 0 ∧
    (WFC.clear c)._stats = zeroStats ∧
    (WFC.close c)._cache = [] ∧ (WFC.stats (WFC.close c)).size = 0 ∧
    (WFC.close c)._stats = c._stats := by
  refine ⟨rfl, rfl, rfl, rfl, rfl, rfl⟩

/-- Claim C6: delete on a path with no entry returns false and leaves the
whole state untouched; delete on a path with an entry returns true,
shrinks the store by exactly one and leaves every counter unchanged. -/
theorem wfc_delete_returns_and_counters {T : Type} (c : WFC.Cache T)
    (p : String) :
    (getKey c._cache p = none →
      (WFC.delete c p).1 = false ∧ (WFC.delete c p).2 = c) ∧
    (∀ e, getKey c._cache p = some e →
      (WFC.delete c p).1 = true ∧
      (WFC.delete c p).2._cache.length + 1 = c._cache.length ∧
      (WFC.delete c p).2._stats = c._stats) := by
  constructor
  · intro h
    simp [WFC.delete, h]
  · intro e h
    refine ⟨?_, ?_, wfc_delete_preserves_stats c p⟩ <;>
      cases hw : e.watcher <;>
        simp [WFC.delete, h, hw, deleteKey_length_of_getKey_some c._cache p e h]

/-- Claim C6 witness: delete of /a on the empty cache returns false and
changes nothing; delete of /a on the one-entry cache returns true,
brings the size from one to zero and keeps the counters at zero. -/
theorem wfc_delete_returns_and_counters_witness :
    ((WFC.delete (WFC.newCache (T := Nat)) "/a").1 = false ∧
      (WFC.delete (WFC.newCache (T := Nat)) "/a").2 = WFC.newCache) ∧
    ((WFC.delete entryOneState "/a").1 = true ∧
      (WFC.delete entryOneState "/a").2._cache.length + 1 =
        entryOneState._cache.length ∧
      (WFC.delete entryOneState "/a").2._stats = entryOneState._stats) :=
  ⟨(wfc_delete_returns_and_counters (WFC.newCache (T := Nat)) "/a").1 rfl,
    (wfc_delete_returns_and_counters entryOneState "/a").2 ⟨some 0, 1⟩
      (by decide)⟩

/-- Claim C7: get on a path with no entry returns none, increments the
misses counter by exactly one, leaves hits, ejected and errors unchanged,
leaves the store unchanged and emits one miss notification; the function
is total, so the call never throws. -/
theorem wfc_get_unknown_path_misses {T : Type} (c : WFC.Cache T)
    (p : String) (h : getKey c._cache p = none) :
    (WFC.get c p).1 = none ∧
    (WFC.get c p).2._stats.misses = c._stats.misses + 1 ∧
    (WFC.get c p).2._stats.hits = c._stats.hits ∧
    (WFC.get c p).2._stats.ejected = c._stats.ejected ∧
    (WFC.get c p).2._stats.errors = c._stats.errors ∧
    (WFC.get c p).2._cache = c._cache ∧
    (WFC.get c p).2.events = c.events ++ [WFC.Event.miss p] := by
  refine ⟨?_, ?_, ?_, ?_, ?_, ?_, ?_⟩ <;> simp [WFC.get, h]

/-- Claim C7 witness: get of an unknown path on the fresh cache returns
none and moves the misses counter from zero to one. -/
theorem wfc_get_unknown_path_misses_witness :
    (WFC.get (WFC.newCache (T := Nat)) "/tmp/unknown").1 = none ∧
    (WFC.get (WFC.newCache (T := Nat)) "/tmp/unknown").2._stats.misses = 1 ∧
    (WFC.get (WFC.newCache (T := Nat)) "/tmp/unknown").2._stats.hits = 0 := by
  have h := wfc_get_unknown_path_misses (WFC.newCache (T := Nat))
    "/tmp/unknown" rfl
  exact ⟨h.1, h.2.1, h.2.2.1⟩

/-- Claim C10: delete on a path with an entry returns true, yet the
delete notification it emits carries the boolean flag false, because the
code emits the ret variable before assigning true to it. -/
theorem wfc_delete_emits_false_flag {T : Type} (c : WFC.Cache T)
    (p : String) (e : WFC.Entry T) (h : getKey c._cache p = some e) :
    (WFC.delete c p).1 = true ∧
    (WFC.delete c p).2.events = c.events ++ [WFC.Event.delEv p false] := by
  cases hw : e.watcher <;> simp [WFC.delete, h, hw]

/-- Claim C10 witness: deleting /a from the one-entry cache returns true
while the emitted delete notification carries false. -/
theorem wfc_delete_emits_false_flag_witness :
    (WFC.delete entryOneState "/a").1 = true ∧
    (WFC.delete entryOneState "/a").2.events =
      entryOneState.events ++ [WFC.Event.delEv "/a" false] :=
  wfc_delete_emits_false_flag entryOneState "/a" ⟨some 0, 1⟩ (by decide)

/-- Claim C1, what the code does on the failing input: after an explicit
delete of /a has already removed the entry, the change callback for /a
still increments the ejected counter from zero to one and still emits an
eject notification, although its inner delete finds no entry and resolves
to false.  The callback performs no presence check before mutating the
statistics. -/
theorem wfc_eject_counted_after_entry_already_deleted :
    getKey raceState._cache "/a" = none ∧
    (WFC.delete raceState "/a").1 = false ∧
    raceState._stats.ejected = 0 ∧
    (WFC.watchCallback raceState "/a" "change")._stats.ejected = 1 ∧
    (WFC.watchCallback raceState "/a" "change").events =
      raceState.events ++ [WFC.Event.eject "/a" "change"] := by
  decide

/-- Claim C4 counterexample: in the chokidar implementation a watch error
on a cache holding an entry for /a increments the errors counter but does
not remove the entry: the path is still present and size stays one, so
the claim that the controller removes the entry on a watch error is false
for this implementation. -/
theorem chokidar_error_leaves_entry_in_store :
    getKey chokErrState._cache "/a" = some (some 1) ∧
    (Chokidar.stats chokErrState).size = 1 ∧
    chokErrState._stats.errors = 1 ∧
    chokErrState._stats.ejected = 0 ∧
    chokErrState._stats.hits = 0 ∧
    chokErrState._stats.misses = 0 := by
  decide

/-- Claim C4 as amended: in the fs.watch implementation the error handler
removes the entry for the path directly from the store without touching
the teardown-wait trace, increments errors by exactly one, leaves every
other counter unchanged and publishes an error notification carrying the
cause; in the chokidar implementation the error handler only increments
errors and leaves the store and the other counters unchanged. -/
theorem error_event_transition {T V : Type} (c : WFC.Cache T)
    (p m : String) (d : Chokidar.Cache V) :
    (WFC.errorCallback c p m)._cache = deleteKey c._cache p ∧
    (WFC.errorCallback c p m).closedWatchers = c.closedWatchers ∧
    (WFC.errorCallback c p m)._stats.errors = c._stats.errors + 1 ∧
    (WFC.errorCallback c p m)._stats.hits = c._stats.hits ∧
    (WFC.errorCallback c p m)._stats.misses = c._stats.misses ∧
    (WFC.errorCallback c p m)._stats.ejected = c._stats.ejected ∧
    (WFC.errorCallback c p m).events = c.events ++ [WFC.Event.errEv m] ∧
    (Chokidar.errorHandler d)._cache = d._cache ∧
    (Chokidar.errorHandler d)._stats.errors = d._stats.errors + 1 ∧
    (Chokidar.errorHandler d)._stats.hits = d._stats.hits ∧
    (Chokidar.errorHandler d)._stats.misses = d._stats.misses ∧
    (Chokidar.errorHandler d)._stats.ejected = d._stats.ejected := by
  refine ⟨rfl, rfl, rfl, rfl, rfl, rfl, rfl, rfl, rfl, rfl, rfl, rfl⟩

/-- Claim C8: the public stats getter has exactly the shape of size plus
the four counters, with size derived as the current entry count and every
field a natural number; each operation of the fs.watch implementation —
get, set, delete, close, the change callback and the error handler —
never decreases any of the four counters, and clear resets them all to
zero. -/
theorem wfc_stats_shape_and_monotonicity {T : Type} (c : WFC.Cache T)
    (p m k : String) (v : T) (w : Except String Nat) :
    WFC.stats c = ⟨c._cache.length, c._stats.hits, c._stats.misses,
      c._stats.ejected, c._stats.errors⟩ ∧
    counterLe c._stats (WFC.get c p).2._stats ∧
    counterLe c._stats (WFC.set c p v w).2._stats ∧
    counterLe c._stats (WFC.delete c p).2._stats ∧
    counterLe c._stats (WFC.close c)._stats ∧
    counterLe c._stats (WFC.watchCallback c p k)._stats ∧
    counterLe c._stats (WFC.errorCallback c p m)._stats ∧
    (WFC.clear c)._stats = zeroStats := by
  refine ⟨rfl, ?_, ?_, ?_, ?_, ?_, ?_, rfl⟩
  · cases hg : getKey c._cache p <;> simp [WFC.get, hg, counterLe]
  · cases hg : getKey c._cache p with
    | none =>
      cases w <;> simp [WFC.set, hg, counterLe]
    | some e => simp [WFC.set, hg, counterLe]
  · rw [wfc_delete_preserves_stats c p]
    exact ⟨le_refl _, le_refl _, le_refl _, le_refl _⟩
  · exact ⟨le_refl _, le_refl _, le_refl _, le_refl _⟩
  · simp [WFC.watchCallback, wfc_delete_preserves_stats c p, counterLe,
      Nat.le_succ]
  · simp [WFC.errorCallback, counterLe, Nat.le_succ]

/-- Claim C9: in the chokidar implementation, when the stored value for a
present path is itself undefined, get returns undefined and counts a
miss, not a hit, while the entry stays in the map and keeps contributing
to size. -/
theorem chokidar_stored_undefined_counts_as_miss {V : Type}
    (c : Chokidar.Cache V) (p : String)
    (h : getKey c._cache p = some none) :
    (Chokidar.get c p).1 = none ∧
    (Chokidar.get c p).2._stats.misses = c._stats.misses + 1 ∧
    (Chokidar.get c p).2._stats.hits = c._stats.hits ∧
    (Chokidar.get c p).2._cache = c._cache ∧
    getKey (Chokidar.get c p).2._cache p = some none ∧
    (Chokidar.stats (Chokidar.get c p).2).size = c._cache.length := by
  refine ⟨?_, ?_, ?_, ?_, ?_, ?_⟩ <;>
    simp [Chokidar.get, Chokidar.jsGet, h, Chokidar.stats]

/-- Claim C9 witness: after set of /a with stored undefined on a fresh
chokidar cache, get of /a returns undefined, moves misses from zero to
one, keeps hits at zero, and size stays one. -/
theorem chokidar_stored_undefined_counts_as_miss_witness :
    (Chokidar.get chokUndefState "/a").1 = none ∧
    (Chokidar.get chokUndefState "/a").2._stats.misses = 1 ∧
    (Chokidar.get chokUndefState "/a").2._stats.hits = 0 ∧
    (Chokidar.stats (Chokidar.get chokUndefState "/a").2).size = 1 := by
  have h := chokidar_stored_undefined_counts_as_miss chokUndefState "/a"
    (by decide)
  exact ⟨h.1, h.2.1, h.2.2.1, h.2.2.2.2.2⟩
